import Mathlib

/-!
Verification development for the xs-backend Express server.

The server (main file, and an older standalone `server.js` variant of the
contact endpoint) exposes two POST endpoints:
  * `/api/job-application` : multipart form + resume file
  * `/api/contact`         : JSON contact form
Each endpoint validates its payload, composes two outbound emails
(an internal notification and an acknowledgment), dispatches both via the
SMTP transporter, and maps the outcome to an HTTP response.

This file shallow-embeds the validators, mail composition and the two
request handlers, and proves the stated properties about them.
-/

/-! ## JavaScript string / value primitives used by the server code -/

/-- Characters matched by the JavaScript regex class backslash-s
(WhiteSpace plus LineTerminator): space, tab, LF, VT, FF, CR, NBSP,
Ogham space, the U+2000 block, LS, PS, NNBSP, MMSP, ideographic space,
and the BOM. -/
def jsWhitespace (c : Char) : Bool :=
  c == ' ' || c == '\t' || c == '\n' || c == '\r' ||
  c == '\x0b' || c == '\x0c' ||
  c == '\u00a0' || c == '\u1680' ||
  ('\u2000' ≤ c && c ≤ '\u200a') ||
  c == '\u2028' || c == '\u2029' || c == '\u202f' || c == '\u205f' ||
  c == '\u3000' || c == '\ufeff'

/-- JavaScript `String.prototype.trim`: drop leading and trailing
whitespace / line terminators. -/
def jsTrim (s : String) : String :=
  String.mk (((s.toList.dropWhile jsWhitespace).reverse.dropWhile jsWhitespace).reverse)

/-- JavaScript `str.replace(/\D/g, '')`: keep only the decimal digits. -/
def stripNonDigits (s : String) : String :=
  String.mk (s.toList.filter Char.isDigit)

/-- A JavaScript value as it can appear in a request-body field: absent
(`undefined`), a string, or a number (enough to model non-string inputs). -/
inductive JSVal where
  | undefined
  | str (s : String)
  | num (n : Int)
deriving DecidableEq, Repr

/-- JavaScript truthiness of a field value: `undefined`, the empty string
and `0` are falsy; every other string or number is truthy. -/
def jsTruthy : JSVal → Bool
  | .undefined => false
  | .str s => s != ""
  | .num n => n != 0

/-- JavaScript string coercion (`String(v)`), as applied by
`RegExp.prototype.test` and template-literal interpolation. -/
def jsToString : JSVal → String
  | .undefined => "undefined"
  | .str s => s
  | .num n => toString n

/-! ## The two regular expressions of the validators

`emailRegex  = /^[^\s@]+@[^\s@]+\.[^\s@]+$/`
`phoneRegex  = /^\+?[\d\s-()]{10,}$/`
-/

/-- Characters matched by the class `[^\s@]` of `emailRegex`. -/
def emailAtomChar (c : Char) : Bool :=
  !jsWhitespace c && c != '@'

/-- Matcher for the regex fragment `[^\s@]*\.[^\s@]+$` (the remainder of
the domain after its first mandatory character): either the dot is here
and a non-empty atom run follows, or consume one atom character and
continue. -/
def emailDomTail : List Char → Bool
  | [] => false
  | c :: rest =>
    (c == '.' && !rest.isEmpty && rest.all emailAtomChar) ||
    (emailAtomChar c && emailDomTail rest)

/-- Matcher for the regex fragment `[^\s@]+\.[^\s@]+$` (the domain part). -/
def emailDom : List Char → Bool
  | [] => false
  | c :: rest => emailAtomChar c && emailDomTail rest

/-- Matcher for `[^\s@]*@[^\s@]+\.[^\s@]+$` (the remainder of the local
part, then `@`, then the domain). -/
def emailLocalTail : List Char → Bool
  | [] => false
  | c :: rest =>
    (c == '@' && emailDom rest) || (emailAtomChar c && emailLocalTail rest)

/-- Matcher for the whole pattern `^[^\s@]+@[^\s@]+\.[^\s@]+$` over a
character list. -/
def emailMatchList : List Char → Bool
  | [] => false
  | c :: rest => emailAtomChar c && emailLocalTail rest

/-- `emailRegex.test(s)` for `/^[^\s@]+@[^\s@]+\.[^\s@]+$/`. -/
def emailRegexTest (s : String) : Bool :=
  emailMatchList s.toList

/-- Characters matched by the class `[\d\s-()]` of `phoneRegex`:
digits, any JavaScript whitespace, hyphen and parentheses. -/
def phoneChar (c : Char) : Bool :=
  c.isDigit || jsWhitespace c || c == '-' || c == '(' || c == ')'

/-- `phoneRegex.test(s)` for `/^\+?[\d\s-()]{10,}$/`: an optional leading
plus sign, then at least ten characters of the class.  `+` is not in the
class, so consuming the optional sign is deterministic, and the empty
string (fewer than ten characters) never matches. -/
def phoneMatchList : List Char → Bool
  | [] => false
  | c :: rest =>
    if c = '+' then 10 ≤ rest.length && rest.all phoneChar
    else 10 ≤ (c :: rest).length && (c :: rest).all phoneChar

/-- String-level entry point for `phoneRegex.test`. -/
def phoneRegexTest (s : String) : Bool :=
  phoneMatchList s.toList

example : emailRegexTest "a@b.com" = true := by decide
example : emailRegexTest "a@b" = false := by decide
example : emailRegexTest "a.com" = false := by decide
example : phoneRegexTest "+1 (555) 123-4567" = true := by decide
example : phoneRegexTest "abc" = false := by decide

/-! ## Validators

The two validators build an `errors` mapping (modelled as an association
list in insertion order, like the keys of a JavaScript object literal) and
return `{ isValid: Object.keys(errors).length === 0, errors }`.  A call on
a non-string truthy field value makes `.trim()` / `.replace()` throw a
`TypeError`; this is modelled by `Except Unit`, `.error ()` standing for
the thrown exception. -/

structure ValidationResult where
  isValid : Bool
  errors : List (String × String)
deriving DecidableEq, Repr

/-- `if (!data.firstName?.trim()) errors.firstName = "First name is required"` (message as in the source):
optional chaining yields `undefined` (falsy) on an absent field, trims a
string, and throws on a number (its `trim` property is `undefined`). -/
def jaFirstNameErrors : JSVal → Except Unit (List (String × String))
  | .undefined => .ok [("firstName", "First name is required")]
  | .str s => .ok (if jsTrim s == "" then [("firstName", "First name is required")] else [])
  | .num _ => .error ()

/-- `if (!data.lastName?.trim()) errors.lastName = "Last name is required"`. -/
def jaLastNameErrors : JSVal → Except Unit (List (String × String))
  | .undefined => .ok [("lastName", "Last name is required")]
  | .str s => .ok (if jsTrim s == "" then [("lastName", "Last name is required")] else [])
  | .num _ => .error ()

/-- `if (!data.email || !emailRegex.test(data.email)) errors.email = ...`;
`test` coerces its argument to a string, so this never throws. -/
def jaEmailErrors (v : JSVal) : List (String × String) :=
  if jsTruthy v && emailRegexTest (jsToString v) then []
  else [("email", "Valid email is required")]

/-- `if (!data.phone || !phoneRegex.test(data.phone)) errors.phone = ...`. -/
def jaPhoneErrors (v : JSVal) : List (String × String) :=
  if jsTruthy v && phoneRegexTest (jsToString v) then []
  else [("phone", "Valid phone number is required")]

/-- Body of a job-application request (the fields the handler destructures). -/
structure JobAppData where
  firstName : JSVal
  lastName : JSVal
  email : JSVal
  phone : JSVal
  jobTitle : JSVal
  jobLocation : JSVal
deriving DecidableEq, Repr

/-- `validateJobApplication` from the main server file: collects the
firstName, lastName, email and phone errors in that order and returns
`{ isValid: Object.keys(errors).length === 0, errors }`; a `TypeError`
thrown by a field check propagates to the caller. -/
def validateJobApplication (data : JobAppData) : Except Unit ValidationResult :=
  match jaFirstNameErrors data.firstName, jaLastNameErrors data.lastName with
  | .ok e1, .ok e2 =>
    let errors := e1 ++ e2 ++ jaEmailErrors data.email ++ jaPhoneErrors data.phone
    .ok ⟨errors.length == 0, errors⟩
  | _, _ => .error ()

/-- `if (!data.name || data.name.trim().length < 2) errors.name = ...`:
short-circuits on a falsy field, trims a string, throws on a truthy
number. -/
def contactNameErrors (v : JSVal) : Except Unit (List (String × String)) :=
  if jsTruthy v then
    match v with
    | .str s => .ok (if (jsTrim s).length < 2 then [("name", "Valid name is required")] else [])
    | _ => .error ()
  else .ok [("name", "Valid name is required")]

/-- `if (!data.email || !emailRegex.test(data.email)) errors.email = ...`
(contact form). -/
def contactEmailErrors (v : JSVal) : List (String × String) :=
  if jsTruthy v && emailRegexTest (jsToString v) then []
  else [("email", "Valid email is required")]

/-- `if (data.fullPhoneNumber) { const cleanedPhone = data.fullPhoneNumber
.replace(/\D/g, ''); if (cleanedPhone.length < 10 || cleanedPhone.length > 15)
errors.phone = "Invalid phone number length"; }` — skipped entirely when the
field is falsy; `.replace` throws on a truthy number. -/
def contactPhoneErrors (v : JSVal) : Except Unit (List (String × String)) :=
  if jsTruthy v then
    match v with
    | .str s =>
      let cleanedPhone := stripNonDigits s
      .ok (if cleanedPhone.length < 10 || cleanedPhone.length > 15 then
             [("phone", "Invalid phone number length")]
           else [])
    | _ => .error ()
  else .ok []

/-- `if (!data.subject || data.subject.trim().length < 3) errors.subject = ...`. -/
def contactSubjectErrors (v : JSVal) : Except Unit (List (String × String)) :=
  if jsTruthy v then
    match v with
    | .str s => .ok (if (jsTrim s).length < 3 then [("subject", "Subject is required")] else [])
    | _ => .error ()
  else .ok [("subject", "Subject is required")]

/-- `if (!data.message || data.message.trim().length < 10) errors.message = ...`. -/
def contactMessageErrors (v : JSVal) : Except Unit (List (String × String)) :=
  if jsTruthy v then
    match v with
    | .str s => .ok (if (jsTrim s).length < 10 then
                       [("message", "Message must be at least 10 characters")]
                     else [])
    | _ => .error ()
  else .ok [("message", "Message must be at least 10 characters")]

/-- Body of a contact request. -/
structure ContactData where
  name : JSVal
  email : JSVal
  fullPhoneNumber : JSVal
  subject : JSVal
  message : JSVal
deriving DecidableEq, Repr

/-- `validateFormInput` (textually identical in the main server file and in
`server.js`): collects the name, email, phone, subject and message errors
in that order and returns
`{ isValid: Object.keys(errors).length === 0, errors }`; a `TypeError`
thrown by a field check propagates to the caller. -/
def validateFormInput (data : ContactData) : Except Unit ValidationResult :=
  match contactNameErrors data.name, contactPhoneErrors data.fullPhoneNumber,
        contactSubjectErrors data.subject, contactMessageErrors data.message with
  | .ok e1, .ok e3, .ok e4, .ok e5 =>
    let errors := e1 ++ contactEmailErrors data.email ++ e3 ++ e4 ++ e5
    .ok ⟨errors.length == 0, errors⟩
  | _, _, _, _ => .error ()

example :
    validateFormInput ⟨.str "Jo", .str "a@b.com", .undefined, .str "Hey", .str "0123456789"⟩ =
      .ok ⟨true, []⟩ := rfl
example :
    validateFormInput ⟨.undefined, .undefined, .undefined, .undefined, .undefined⟩ =
      .ok ⟨false, [("name", "Valid name is required"), ("email", "Valid email is required"),
                   ("subject", "Subject is required"),
                   ("message", "Message must be at least 10 characters")]⟩ := rfl
example :
    validateJobApplication ⟨.str "J", .str "D", .str "a@b.com", .str "1234567890",
                            .undefined, .undefined⟩ = .ok ⟨true, []⟩ := rfl
example :
    validateJobApplication ⟨.num 5, .str "D", .str "a@b.com", .str "1234567890",
                            .undefined, .undefined⟩ = .error () := rfl

/-! ## Mail composition

The configured addresses come from `process.env`; the composed messages
mirror the `mailOptions` object literals of the handlers, with `from`
rendered as `fromAddr` and `to` as `toAddr` (both Lean keywords).  Template-literal interpolation
uses the same string coercion as above. -/

structure Env where
  EMAIL_USER : String
  CLIENT_EMAIL : String
  HR_EMAIL : String
deriving DecidableEq, Repr

/-- `req.file` as produced by multer's memory storage. -/
structure UploadedFile where
  originalname : String
  buffer : String
  mimetype : String
deriving DecidableEq, Repr

structure Attachment where
  filename : String
  content : String
  contentType : String
deriving DecidableEq, Repr

structure MailOptions where
  fromAddr : String
  toAddr : String
  cc : Option String
  subject : String
  html : String
  attachments : List Attachment
deriving DecidableEq, Repr

/-- HTML body of the internal job-application notification. -/
def jobAppNotificationHtml (firstName lastName email phone jobTitle jobLocation : String) :
    String :=
  "
        <div style=\"font-family: Arial, sans-serif; max-width: 600px; margin: 0 auto;\">
          <h2>New Job Application</h2>
          <table style=\"width: 100%; border-collapse: collapse;\">
            <tr>
              <td style=\"padding: 10px; border: 1px solid #ddd;\"><strong>Name:</strong></td>
              <td style=\"padding: 10px; border: 1px solid #ddd;\">" ++ firstName ++ " " ++ lastName ++ "</td>
            </tr>
            <tr>
              <td style=\"padding: 10px; border: 1px solid #ddd;\"><strong>Email:</strong></td>
              <td style=\"padding: 10px; border: 1px solid #ddd;\">" ++ email ++ "</td>
            </tr>
            <tr>
              <td style=\"padding: 10px; border: 1px solid #ddd;\"><strong>Phone:</strong></td>
              <td style=\"padding: 10px; border: 1px solid #ddd;\">" ++ phone ++ "</td>
            </tr>
            <tr>
              <td style=\"padding: 10px; border: 1px solid #ddd;\"><strong>Job Title:</strong></td>
              <td style=\"padding: 10px; border: 1px solid #ddd;\">" ++ jobTitle ++ "</td>
            </tr>
            <tr>
              <td style=\"padding: 10px; border: 1px solid #ddd;\"><strong>Job Location:</strong></td>
              <td style=\"padding: 10px; border: 1px solid #ddd;\">" ++ jobLocation ++ "</td>
            </tr>
          </table>
        </div>
      "

/-- HTML body of the acknowledgment sent to the applicant. -/
def applicantAckHtml (firstName jobTitle jobLocation : String) : String :=
  "
        <div style=\"font-family: Arial, sans-serif; max-width: 600px; margin: 0 auto;\">
          <h2>Thank You for Your Application!</h2>
          <p>Hi " ++ firstName ++ ",</p>
          <p>We\x27ve received your job application for the position of <strong>" ++ jobTitle ++ "</strong> in <strong>" ++ jobLocation ++ "</strong> and will review it shortly.</p>
          <p>Our hiring team will contact you if your qualifications match our requirements.</p>
          <br>
          <p>Best regards,<br>Xemsoft</p>
        </div>
      "

/-- HTML body of the internal contact-form notification; the phone row is
interpolated only when `fullPhoneNumber` is truthy (the same template text
appears in the main server file and in `server.js`). -/
def contactNotificationHtml (name email : String) (fullPhoneNumber : JSVal)
    (subject message : String) : String :=
  "
        <div style=\"font-family: Arial, sans-serif; max-width: 600px; margin: 0 auto;\">
          <h2>New Contact Form Submission</h2>
          <table style=\"width: 100%; border-collapse: collapse;\">
            <tr>
              <td style=\"padding: 10px; border: 1px solid #ddd;\"><strong>Name:</strong></td>
              <td style=\"padding: 10px; border: 1px solid #ddd;\">" ++ name ++ "</td>
            </tr>
            <tr>
              <td style=\"padding: 10px; border: 1px solid #ddd;\"><strong>Email:</strong></td>
              <td style=\"padding: 10px; border: 1px solid #ddd;\">" ++ email ++ "</td>
            </tr>
            " ++
  (if jsTruthy fullPhoneNumber then
    "
            <tr>
              <td style=\"padding: 10px; border: 1px solid #ddd;\"><strong>Phone:</strong></td>
              <td style=\"padding: 10px; border: 1px solid #ddd;\">" ++ jsToString fullPhoneNumber ++ "</td>
            </tr>"
   else "") ++ "
            <tr>
              <td style=\"padding: 10px; border: 1px solid #ddd;\"><strong>Subject:</strong></td>
              <td style=\"padding: 10px; border: 1px solid #ddd;\">" ++ subject ++ "</td>
            </tr>
            <tr>
              <td style=\"padding: 10px; border: 1px solid #ddd;\"><strong>Message:</strong></td>
              <td style=\"padding: 10px; border: 1px solid #ddd;\">" ++ message ++ "</td>
            </tr>
          </table>
        </div>
      "

/-- HTML body of the acknowledgment sent to the contact-form submitter. -/
def contactAckHtml (name subject : String) : String :=
  "
        <div style=\"font-family: Arial, sans-serif; max-width: 600px; margin: 0 auto;\">
          <h2>Thank You for Contacting Us!</h2>
          <p>Hi " ++ name ++ ",</p>
          <p>We\x27ve received your message regarding \"" ++ subject ++ "\" and will get back to you soon.</p>
          <p>Our team will review your inquiry and respond within the next 1-2 business days.</p>
          <br>
          <p>Best regards,<br>Xemsoft</p>
        </div>
      "

/-- `mailOptions` of the job-application handler: the internal notification,
sent to `CLIENT_EMAIL` with a `cc` to `HR_EMAIL` and the resume attached. -/
def jobAppMailOptions (env : Env) (b : JobAppData) (file : UploadedFile) : MailOptions :=
  { fromAddr := "\"Job Application\" <" ++ env.EMAIL_USER ++ ">"
    toAddr := env.CLIENT_EMAIL
    cc := some env.HR_EMAIL
    subject := "Xemsoft | New Job Application | " ++ jsToString b.jobTitle ++ " | " ++
      jsToString b.jobLocation ++ " - " ++ jsToString b.firstName ++ " " ++ jsToString b.lastName
    html := jobAppNotificationHtml (jsToString b.firstName) (jsToString b.lastName)
      (jsToString b.email) (jsToString b.phone) (jsToString b.jobTitle) (jsToString b.jobLocation)
    attachments := [⟨file.originalname, file.buffer, file.mimetype⟩] }

/-- `applicantMailOptions`: the acknowledgment sent to the applicant. -/
def applicantMailOptions (env : Env) (b : JobAppData) : MailOptions :=
  { fromAddr := "\"Xemsoft\" <" ++ env.EMAIL_USER ++ ">"
    toAddr := jsToString b.email
    cc := none
    subject := "We\x27ve Received Your Job Application"
    html := applicantAckHtml (jsToString b.firstName) (jsToString b.jobTitle)
      (jsToString b.jobLocation)
    attachments := [] }

/-- `clientMailOptions` of the contact handler in the main server file:
the internal notification, sent to `CLIENT_EMAIL` with a `cc` to
`HR_EMAIL`. -/
def clientMailOptions (env : Env) (b : ContactData) : MailOptions :=
  { fromAddr := "\"Contact Form\" <" ++ env.EMAIL_USER ++ ">"
    toAddr := env.CLIENT_EMAIL
    cc := some env.HR_EMAIL
    subject := "Xemsoft | New Contact Form Submission: " ++ jsToString b.subject
    html := contactNotificationHtml (jsToString b.name) (jsToString b.email) b.fullPhoneNumber
      (jsToString b.subject) (jsToString b.message)
    attachments := [] }

/-- `clientMailOptions` of the standalone `server.js` contact handler:
identical except that it has no `cc` line. -/
def clientMailOptionsServerJs (env : Env) (b : ContactData) : MailOptions :=
  { fromAddr := "\"Contact Form\" <" ++ env.EMAIL_USER ++ ">"
    toAddr := env.CLIENT_EMAIL
    cc := none
    subject := "Xemsoft | New Contact Form Submission: " ++ jsToString b.subject
    html := contactNotificationHtml (jsToString b.name) (jsToString b.email) b.fullPhoneNumber
      (jsToString b.subject) (jsToString b.message)
    attachments := [] }

/-- `userMailOptions`: the acknowledgment sent to the contact-form user. -/
def userMailOptions (env : Env) (b : ContactData) : MailOptions :=
  { fromAddr := "\"Xemsoft\" <" ++ env.EMAIL_USER ++ ">"
    toAddr := jsToString b.email
    cc := none
    subject := "We\x27ve Received Your Message"
    html := contactAckHtml (jsToString b.name) (jsToString b.subject)
    attachments := [] }

/-! ## HTTP handlers -/

/-- The JSON response of a handler: `200 {message}`, `400 {errors}`, or
`500 {message, error}`. -/
inductive Response where
  | ok (message : String)
  | badRequest (errors : List (String × String))
  | serverError (message : String) (error : String)
deriving DecidableEq, Repr

def jobAppSuccessMessage : String :=
  "Application submitted successfully. We\x27ll be in touch soon!"

def jobAppFailureMessage : String :=
  "Failed to submit application. Please try again later."

def contactSuccessMessage : String :=
  "Form submitted successfully. We\x27ll be in touch soon!"

def contactFailureMessage : String :=
  "Failed to submit form. Please try again later."

/-- Stand-in for the `.message` of the `TypeError` thrown inside a
validator on a non-string field; the handler forwards `error.message`
verbatim, and its exact text is a property of the JavaScript runtime. -/
def jsTypeErrorMessage : String := "TypeError"

/-- A multipart job-application request: the parsed body plus the optional
`resume` file stored by multer. -/
structure JobAppRequest where
  body : JobAppData
  file : Option UploadedFile
deriving DecidableEq, Repr

/-- The `/api/job-application` handler.  `sendMail` is the transporter;
the handler returns the HTTP response together with the list of messages
handed to the transporter, in dispatch order.  `Promise.all` fires both
sends and rejects with the first rejection; when both sends fail the
surfaced message is timing-dependent in JavaScript, determinized here to
the notification's error. -/
def jobAppHandler (env : Env) (sendMail : MailOptions → Except String Unit)
    (req : JobAppRequest) : Response × List MailOptions :=
  match validateJobApplication req.body with
  | .error _ => (.serverError jobAppFailureMessage jsTypeErrorMessage, [])
  | .ok vr =>
    if !vr.isValid then (.badRequest vr.errors, [])
    else
      match req.file with
      | none => (.badRequest [("file", "Resume is required")], [])
      | some file =>
        let m1 := jobAppMailOptions env req.body file
        let m2 := applicantMailOptions env req.body
        match sendMail m1, sendMail m2 with
        | .ok _, .ok _ => (.ok jobAppSuccessMessage, [m1, m2])
        | .error e, _ => (.serverError jobAppFailureMessage e, [m1, m2])
        | .ok _, .error e => (.serverError jobAppFailureMessage e, [m1, m2])

/-- The `/api/contact` handler of the main server file, modelled like
`jobAppHandler`. -/
def contactHandler (env : Env) (sendMail : MailOptions → Except String Unit)
    (data : ContactData) : Response × List MailOptions :=
  match validateFormInput data with
  | .error _ => (.serverError contactFailureMessage jsTypeErrorMessage, [])
  | .ok vr =>
    if !vr.isValid then (.badRequest vr.errors, [])
    else
      let m1 := clientMailOptions env data
      let m2 := userMailOptions env data
      match sendMail m1, sendMail m2 with
      | .ok _, .ok _ => (.ok contactSuccessMessage, [m1, m2])
      | .error e, _ => (.serverError contactFailureMessage e, [m1, m2])
      | .ok _, .error e => (.serverError contactFailureMessage e, [m1, m2])

/-! ## Pattern characterizations as worded by the specification

These definitions follow the spec text, to be compared with the
executable matchers translated from the code. -/

/-- The e-mail pattern as the spec words it: a non-empty run of characters
that are neither whitespace nor `@`, then `@`, then such a run, then `.`,
then such a run. -/
def EmailSpecMatch (s : String) : Prop :=
  ∃ a b c : List Char,
    s.toList = a ++ '@' :: (b ++ '.' :: c) ∧
    a ≠ [] ∧ b ≠ [] ∧ c ≠ [] ∧
    (∀ ch ∈ a, emailAtomChar ch = true) ∧
    (∀ ch ∈ b, emailAtomChar ch = true) ∧
    (∀ ch ∈ c, emailAtomChar ch = true)

/-- The job-application phone pattern shape: an optional leading plus sign
followed by at least ten characters drawn from `allowed`. -/
def PhoneSpecMatch (allowed : Char → Bool) (s : String) : Prop :=
  ∃ t : List Char, (s.toList = t ∨ s.toList = '+' :: t) ∧
    10 ≤ t.length ∧ ∀ c ∈ t, allowed c = true

/-- The character set the spec claims for the job-application phone:
digit, space, hyphen or parenthesis (the plain space only, not every
whitespace character). -/
def spacePhoneChar (c : Char) : Bool :=
  c.isDigit || c == ' ' || c == '-' || c == '(' || c == ')'

/-! ## Equivalence of the regex matchers with their characterizations -/

theorem bnot_isEmpty_iff_ne_nil {α : Type} (l : List α) : (!l.isEmpty) = true ↔ l ≠ [] := by
  cases l <;> simp

theorem emailDomTail_iff (cs : List Char) :
    emailDomTail cs = true ↔
      ∃ b c : List Char, cs = b ++ '.' :: c ∧ c ≠ [] ∧
        (∀ ch ∈ b, emailAtomChar ch = true) ∧ (∀ ch ∈ c, emailAtomChar ch = true) := by
  induction cs with
  | nil =>
    constructor
    · intro h; simp [emailDomTail] at h
    · rintro ⟨b, c, h, -, -, -⟩
      exact absurd h (by cases b <;> simp)
  | cons x rest ih =>
    simp only [emailDomTail, Bool.or_eq_true, Bool.and_eq_true, beq_iff_eq]
    constructor
    · rintro (⟨⟨rfl, hne⟩, hall⟩ | ⟨hx, ht⟩)
      · refine ⟨[], rest, rfl, (bnot_isEmpty_iff_ne_nil rest).mp hne, by simp, ?_⟩
        intro ch hch
        exact List.all_eq_true.mp hall ch hch
      · rcases ih.mp ht with ⟨b, c, rfl, hc, hb, hcl⟩
        refine ⟨x :: b, c, rfl, hc, ?_, hcl⟩
        intro ch hch
        rcases List.mem_cons.mp hch with rfl | hch
        · exact hx
        · exact hb ch hch
    · rintro ⟨b, c, heq, hc, hb, hcl⟩
      cases b with
      | nil =>
        simp only [List.nil_append, List.cons.injEq] at heq
        obtain ⟨rfl, rfl⟩ := heq
        refine Or.inl ⟨⟨rfl, (bnot_isEmpty_iff_ne_nil rest).mpr hc⟩, ?_⟩
        exact List.all_eq_true.mpr hcl
      | cons b0 b' =>
        simp only [List.cons_append, List.cons.injEq] at heq
        obtain ⟨rfl, rfl⟩ := heq
        refine Or.inr ⟨hb x (by simp), ih.mpr ⟨b', c, rfl, hc, ?_, hcl⟩⟩
        intro ch hch
        exact hb ch (List.mem_cons_of_mem _ hch)

theorem emailDom_iff (cs : List Char) :
    emailDom cs = true ↔
      ∃ b c : List Char, cs = b ++ '.' :: c ∧ b ≠ [] ∧ c ≠ [] ∧
        (∀ ch ∈ b, emailAtomChar ch = true) ∧ (∀ ch ∈ c, emailAtomChar ch = true) := by
  cases cs with
  | nil =>
    constructor
    · intro h; simp [emailDom] at h
    · rintro ⟨b, c, heq, -, -, -, -⟩
      exact absurd heq (by cases b <;> simp)
  | cons x rest =>
    simp only [emailDom, Bool.and_eq_true]
    constructor
    · rintro ⟨hx, ht⟩
      rcases (emailDomTail_iff rest).mp ht with ⟨b, c, rfl, hc, hb, hcl⟩
      refine ⟨x :: b, c, rfl, by simp, hc, ?_, hcl⟩
      intro ch hch
      rcases List.mem_cons.mp hch with rfl | hch
      · exact hx
      · exact hb ch hch
    · rintro ⟨b, c, heq, hbne, hc, hball, hcall⟩
      cases b with
      | nil => exact absurd rfl hbne
      | cons b0 b' =>
        simp only [List.cons_append, List.cons.injEq] at heq
        obtain ⟨rfl, rfl⟩ := heq
        refine ⟨hball x (by simp), (emailDomTail_iff _).mpr ⟨b', c, rfl, hc, ?_, hcall⟩⟩
        intro ch hch
        exact hball ch (List.mem_cons_of_mem _ hch)

theorem emailLocalTail_iff (cs : List Char) :
    emailLocalTail cs = true ↔
      ∃ a rest : List Char, cs = a ++ '@' :: rest ∧
        (∀ ch ∈ a, emailAtomChar ch = true) ∧ emailDom rest = true := by
  induction cs with
  | nil =>
    constructor
    · intro h; simp [emailLocalTail] at h
    · rintro ⟨a, rest, heq, -, -⟩
      exact absurd heq (by cases a <;> simp)
  | cons x xs ih =>
    simp only [emailLocalTail, Bool.or_eq_true, Bool.and_eq_true, beq_iff_eq]
    constructor
    · rintro (⟨rfl, hdom⟩ | ⟨hx, ht⟩)
      · exact ⟨[], xs, rfl, by simp, hdom⟩
      · rcases ih.mp ht with ⟨a, rest, rfl, ha, hdom⟩
        refine ⟨x :: a, rest, rfl, ?_, hdom⟩
        intro ch hch
        rcases List.mem_cons.mp hch with rfl | hch
        · exact hx
        · exact ha ch hch
    · rintro ⟨a, rest, heq, ha, hdom⟩
      cases a with
      | nil =>
        simp only [List.nil_append, List.cons.injEq] at heq
        obtain ⟨rfl, rfl⟩ := heq
        exact Or.inl ⟨rfl, hdom⟩
      | cons a0 a' =>
        simp only [List.cons_append, List.cons.injEq] at heq
        obtain ⟨rfl, rfl⟩ := heq
        refine Or.inr ⟨ha x (by simp), ih.mpr ⟨a', rest, rfl, ?_, hdom⟩⟩
        intro ch hch
        exact ha ch (List.mem_cons_of_mem _ hch)

theorem emailMatchList_iff (cs : List Char) :
    emailMatchList cs = true ↔
      ∃ a b c : List Char, cs = a ++ '@' :: (b ++ '.' :: c) ∧
        a ≠ [] ∧ b ≠ [] ∧ c ≠ [] ∧
        (∀ ch ∈ a, emailAtomChar ch = true) ∧ (∀ ch ∈ b, emailAtomChar ch = true) ∧
        (∀ ch ∈ c, emailAtomChar ch = true) := by
  cases cs with
  | nil =>
    constructor
    · intro h; simp [emailMatchList] at h
    · rintro ⟨a, b, c, heq, -, -, -, -, -, -⟩
      exact absurd heq (by cases a <;> simp)
  | cons x xs =>
    simp only [emailMatchList, Bool.and_eq_true]
    constructor
    · rintro ⟨hx, ht⟩
      rcases (emailLocalTail_iff xs).mp ht with ⟨a', rest, rfl, ha', hdom⟩
      rcases (emailDom_iff rest).mp hdom with ⟨b, c, rfl, hbne, hc, hball, hcall⟩
      refine ⟨x :: a', b, c, rfl, by simp, hbne, hc, ?_, hball, hcall⟩
      intro ch hch
      rcases List.mem_cons.mp hch with rfl | hch
      · exact hx
      · exact ha' ch hch
    · rintro ⟨a, b, c, heq, hane, hbne, hc, haall, hball, hcall⟩
      cases a with
      | nil => exact absurd rfl hane
      | cons a0 a' =>
        simp only [List.cons_append, List.cons.injEq] at heq
        obtain ⟨rfl, rfl⟩ := heq
        refine ⟨haall x (by simp), (emailLocalTail_iff _).mpr
          ⟨a', b ++ '.' :: c, rfl, ?_, (emailDom_iff _).mpr ⟨b, c, rfl, hbne, hc, hball, hcall⟩⟩⟩
        intro ch hch
        exact haall ch (List.mem_cons_of_mem _ hch)

theorem emailRegexTest_iff (s : String) : emailRegexTest s = true ↔ EmailSpecMatch s :=
  emailMatchList_iff s.toList

theorem phoneMatchList_iff (cs : List Char) :
    phoneMatchList cs = true ↔
      ∃ t : List Char, (cs = t ∨ cs = '+' :: t) ∧ 10 ≤ t.length ∧
        ∀ c ∈ t, phoneChar c = true := by
  cases cs with
  | nil =>
    constructor
    · intro h; simp [phoneMatchList] at h
    · rintro ⟨t, ht | ht, hlen, -⟩
      · rw [← ht] at hlen; simp at hlen
      · exact absurd ht (by simp)
  | cons c rest =>
    simp only [phoneMatchList]
    split_ifs with hc
    · subst hc
      constructor
      · intro h
        rw [Bool.and_eq_true, decide_eq_true_eq, List.all_eq_true] at h
        exact ⟨rest, Or.inr rfl, h.1, h.2⟩
      · rintro ⟨t, ht | ht, hlen, hall⟩
        · have hmem : ('+' : Char) ∈ t := ht ▸ List.mem_cons_self '+' rest
          exact absurd (hall '+' hmem) (by decide)
        · injection ht with _ h2
          subst h2
          rw [Bool.and_eq_true, decide_eq_true_eq, List.all_eq_true]
          exact ⟨hlen, hall⟩
    · constructor
      · intro h
        rw [Bool.and_eq_true, decide_eq_true_eq, List.all_eq_true] at h
        exact ⟨c :: rest, Or.inl rfl, h.1, h.2⟩
      · rintro ⟨t, ht | ht, hlen, hall⟩
        · rw [Bool.and_eq_true, decide_eq_true_eq, List.all_eq_true]
          rw [ht]
          exact ⟨hlen, hall⟩
        · exact absurd (List.cons.inj ht).1 hc
      
theorem phoneRegexTest_iff (s : String) :
    phoneRegexTest s = true ↔ PhoneSpecMatch phoneChar s :=
  phoneMatchList_iff s.toList

/-! ## Helper lemmas about the field checks -/

theorem accept_if_eq_nil (b : Bool) (kv : String × String) :
    (if b then ([] : List (String × String)) else [kv]) = [] ↔ b = true := by
  cases b <;> simp

theorem truthy_and_test (s : String) (test : String → Bool) (hempty : test "" = false) :
    ((s != "") && test s) = true ↔ test s = true := by
  constructor
  · intro h
    rw [Bool.and_eq_true] at h
    exact h.2
  · intro h
    rw [Bool.and_eq_true]
    refine ⟨?_, h⟩
    rw [bne_iff_ne]
    intro hs
    rw [hs, hempty] at h
    exact Bool.false_ne_true h

theorem emailRegexTest_empty : emailRegexTest "" = false := rfl

theorem phoneRegexTest_empty : phoneRegexTest "" = false := rfl

/-- Acceptance of the e-mail field by the job-application validator,
characterized by the spec pattern. -/
theorem jaEmail_accept_iff (s : String) :
    jaEmailErrors (JSVal.str s) = [] ↔ EmailSpecMatch s := by
  have h1 : jaEmailErrors (JSVal.str s) = [] ↔ ((s != "") && emailRegexTest s) = true :=
    accept_if_eq_nil ((s != "") && emailRegexTest s) ("email", "Valid email is required")
  rw [h1, truthy_and_test s emailRegexTest emailRegexTest_empty]
  exact emailRegexTest_iff s

/-- Acceptance of the e-mail field by the contact validator (same body). -/
theorem contactEmail_accept_iff (s : String) :
    contactEmailErrors (JSVal.str s) = [] ↔ EmailSpecMatch s := by
  have h1 : contactEmailErrors (JSVal.str s) = [] ↔ ((s != "") && emailRegexTest s) = true :=
    accept_if_eq_nil ((s != "") && emailRegexTest s) ("email", "Valid email is required")
  rw [h1, truthy_and_test s emailRegexTest emailRegexTest_empty]
  exact emailRegexTest_iff s

/-- Acceptance of the phone field by the job-application validator,
characterized by the regex pattern shape. -/
theorem jaPhone_accept_iff (s : String) :
    jaPhoneErrors (JSVal.str s) = [] ↔ PhoneSpecMatch phoneChar s := by
  have h1 : jaPhoneErrors (JSVal.str s) = [] ↔ ((s != "") && phoneRegexTest s) = true :=
    accept_if_eq_nil ((s != "") && phoneRegexTest s) ("phone", "Valid phone number is required")
  rw [h1, truthy_and_test s phoneRegexTest phoneRegexTest_empty]
  exact phoneRegexTest_iff s

/-! ## Shape of the validators' results -/

theorem validateJobApplication_ok (d : JobAppData) (vr : ValidationResult)
    (h : validateJobApplication d = .ok vr) :
    ∃ e1 e2, jaFirstNameErrors d.firstName = .ok e1 ∧ jaLastNameErrors d.lastName = .ok e2 ∧
      vr.errors = e1 ++ e2 ++ jaEmailErrors d.email ++ jaPhoneErrors d.phone ∧
      vr.isValid = (vr.errors.length == 0) := by
  unfold validateJobApplication at h
  cases h1 : jaFirstNameErrors d.firstName with
  | error e =>
    rw [h1] at h
    exact absurd h (by simp)
  | ok e1 =>
    cases h2 : jaLastNameErrors d.lastName with
    | error e =>
      rw [h1, h2] at h
      exact absurd h (by simp)
    | ok e2 =>
      rw [h1, h2] at h
      simp only [Except.ok.injEq] at h
      subst h
      exact ⟨e1, e2, rfl, rfl, rfl, rfl⟩

theorem validateFormInput_ok (d : ContactData) (vr : ValidationResult)
    (h : validateFormInput d = .ok vr) :
    ∃ e1 e3 e4 e5, contactNameErrors d.name = .ok e1 ∧
      contactPhoneErrors d.fullPhoneNumber = .ok e3 ∧
      contactSubjectErrors d.subject = .ok e4 ∧ contactMessageErrors d.message = .ok e5 ∧
      vr.errors = e1 ++ contactEmailErrors d.email ++ e3 ++ e4 ++ e5 ∧
      vr.isValid = (vr.errors.length == 0) := by
  unfold validateFormInput at h
  cases h1 : contactNameErrors d.name with
  | error e =>
    rw [h1] at h
    exact absurd h (by simp)
  | ok e1 =>
    cases h2 : contactPhoneErrors d.fullPhoneNumber with
    | error e =>
      rw [h1, h2] at h
      exact absurd h (by simp)
    | ok e3 =>
      cases h3 : contactSubjectErrors d.subject with
      | error e =>
        rw [h1, h2, h3] at h
        exact absurd h (by simp)
      | ok e4 =>
        cases h4 : contactMessageErrors d.message with
        | error e =>
          rw [h1, h2, h3, h4] at h
          exact absurd h (by simp)
        | ok e5 =>
          rw [h1, h2, h3, h4] at h
          simp only [Except.ok.injEq] at h
          subst h
          exact ⟨e1, e3, e4, e5, rfl, rfl, rfl, rfl, rfl, rfl⟩

/-! ## Possible outcomes of each field check -/

theorem jaFirstNameErrors_cases (v : JSVal) (e : List (String × String))
    (h : jaFirstNameErrors v = .ok e) :
    e = [] ∨ e = [("firstName", "First name is required")] := by
  cases v with
  | undefined =>
    simp only [jaFirstNameErrors, Except.ok.injEq] at h
    exact Or.inr h.symm
  | str s =>
    simp only [jaFirstNameErrors, Except.ok.injEq] at h
    split at h
    · exact Or.inr h.symm
    · exact Or.inl h.symm
  | num n => simp [jaFirstNameErrors] at h

theorem jaLastNameErrors_cases (v : JSVal) (e : List (String × String))
    (h : jaLastNameErrors v = .ok e) :
    e = [] ∨ e = [("lastName", "Last name is required")] := by
  cases v with
  | undefined =>
    simp only [jaLastNameErrors, Except.ok.injEq] at h
    exact Or.inr h.symm
  | str s =>
    simp only [jaLastNameErrors, Except.ok.injEq] at h
    split at h
    · exact Or.inr h.symm
    · exact Or.inl h.symm
  | num n => simp [jaLastNameErrors] at h

theorem jaEmailErrors_cases (v : JSVal) :
    jaEmailErrors v = [] ∨ jaEmailErrors v = [("email", "Valid email is required")] := by
  unfold jaEmailErrors
  split
  · exact Or.inl rfl
  · exact Or.inr rfl

theorem jaPhoneErrors_cases (v : JSVal) :
    jaPhoneErrors v = [] ∨ jaPhoneErrors v = [("phone", "Valid phone number is required")] := by
  unfold jaPhoneErrors
  split
  · exact Or.inl rfl
  · exact Or.inr rfl

theorem contactNameErrors_cases (v : JSVal) (e : List (String × String))
    (h : contactNameErrors v = .ok e) :
    e = [] ∨ e = [("name", "Valid name is required")] := by
  unfold contactNameErrors at h
  split at h
  · cases v with
    | undefined => simp at h
    | str s =>
      simp only [Except.ok.injEq] at h
      split at h
      · exact Or.inr h.symm
      · exact Or.inl h.symm
    | num n => simp at h
  · simp only [Except.ok.injEq] at h
    exact Or.inr h.symm

theorem contactEmailErrors_cases (v : JSVal) :
    contactEmailErrors v = [] ∨ contactEmailErrors v = [("email", "Valid email is required")] := by
  unfold contactEmailErrors
  split
  · exact Or.inl rfl
  · exact Or.inr rfl

theorem contactPhoneErrors_cases (v : JSVal) (e : List (String × String))
    (h : contactPhoneErrors v = .ok e) :
    e = [] ∨ e = [("phone", "Invalid phone number length")] := by
  unfold contactPhoneErrors at h
  split at h
  · cases v with
    | undefined => simp at h
    | str s =>
      simp only [Except.ok.injEq] at h
      split at h
      · exact Or.inr h.symm
      · exact Or.inl h.symm
    | num n => simp at h
  · simp only [Except.ok.injEq] at h
    exact Or.inl h.symm

theorem contactSubjectErrors_cases (v : JSVal) (e : List (String × String))
    (h : contactSubjectErrors v = .ok e) :
    e = [] ∨ e = [("subject", "Subject is required")] := by
  unfold contactSubjectErrors at h
  split at h
  · cases v with
    | undefined => simp at h
    | str s =>
      simp only [Except.ok.injEq] at h
      split at h
      · exact Or.inr h.symm
      · exact Or.inl h.symm
    | num n => simp at h
  · simp only [Except.ok.injEq] at h
    exact Or.inr h.symm

theorem contactMessageErrors_cases (v : JSVal) (e : List (String × String))
    (h : contactMessageErrors v = .ok e) :
    e = [] ∨ e = [("message", "Message must be at least 10 characters")] := by
  unfold contactMessageErrors at h
  split at h
  · cases v with
    | undefined => simp at h
    | str s =>
      simp only [Except.ok.injEq] at h
      split at h
      · exact Or.inr h.symm
      · exact Or.inl h.symm
    | num n => simp at h
  · simp only [Except.ok.injEq] at h
    exact Or.inr h.symm

/-! ## Derived facts about validator results -/

theorem isValid_iff_of_shape (vr : ValidationResult)
    (h : vr.isValid = (vr.errors.length == 0)) :
    vr.isValid = true ↔ vr.errors = [] := by
  rw [h, beq_iff_eq, List.length_eq_zero]

theorem isValid_false_of_mem (vr : ValidationResult)
    (hshape : vr.isValid = (vr.errors.length == 0))
    (p : String × String) (hp : p ∈ vr.errors) : vr.isValid = false := by
  rw [hshape]
  cases herr : vr.errors with
  | nil => rw [herr] at hp; exact absurd hp (by simp)
  | cons x t => rfl

theorem validateJobApplication_keys (d : JobAppData) (vr : ValidationResult)
    (h : validateJobApplication d = .ok vr) :
    ∀ p ∈ vr.errors,
      p.1 = "firstName" ∨ p.1 = "lastName" ∨ p.1 = "email" ∨ p.1 = "phone" := by
  obtain ⟨e1, e2, h1, h2, herr, -⟩ := validateJobApplication_ok d vr h
  intro p hp
  rw [herr] at hp
  simp only [List.append_assoc, List.mem_append] at hp
  rcases hp with hp | hp | hp | hp
  · rcases jaFirstNameErrors_cases _ _ h1 with rfl | rfl
    · exact absurd hp (by simp)
    · rw [List.mem_singleton] at hp; subst hp; exact Or.inl rfl
  · rcases jaLastNameErrors_cases _ _ h2 with rfl | rfl
    · exact absurd hp (by simp)
    · rw [List.mem_singleton] at hp; subst hp; exact Or.inr (Or.inl rfl)
  · rcases jaEmailErrors_cases d.email with he | he <;> rw [he] at hp
    · exact absurd hp (by simp)
    · rw [List.mem_singleton] at hp; subst hp; exact Or.inr (Or.inr (Or.inl rfl))
  · rcases jaPhoneErrors_cases d.phone with he | he <;> rw [he] at hp
    · exact absurd hp (by simp)
    · rw [List.mem_singleton] at hp; subst hp; exact Or.inr (Or.inr (Or.inr rfl))

theorem validateJobApplication_no_file_key (d : JobAppData) (vr : ValidationResult)
    (h : validateJobApplication d = .ok vr) :
    "file" ∉ vr.errors.map Prod.fst := by
  intro hmem
  rw [List.mem_map] at hmem
  obtain ⟨p, hp, hfst⟩ := hmem
  rcases validateJobApplication_keys d vr h p hp with h' | h' | h' | h' <;>
    rw [h'] at hfst <;> exact absurd hfst (by decide)

/-! ## Handler paths -/

theorem jobAppHandler_thrown (env : Env) (send : MailOptions → Except String Unit)
    (req : JobAppRequest) (h : validateJobApplication req.body = .error ()) :
    jobAppHandler env send req = (.serverError jobAppFailureMessage jsTypeErrorMessage, []) := by
  unfold jobAppHandler
  rw [h]

theorem jobAppHandler_invalid (env : Env) (send : MailOptions → Except String Unit)
    (req : JobAppRequest) (vr : ValidationResult)
    (h : validateJobApplication req.body = .ok vr) (hv : vr.isValid = false) :
    jobAppHandler env send req = (.badRequest vr.errors, []) := by
  unfold jobAppHandler
  rw [h]
  simp [hv]

theorem jobAppHandler_nofile (env : Env) (send : MailOptions → Except String Unit)
    (req : JobAppRequest) (vr : ValidationResult)
    (h : validateJobApplication req.body = .ok vr) (hv : vr.isValid = true)
    (hf : req.file = none) :
    jobAppHandler env send req = (.badRequest [("file", "Resume is required")], []) := by
  unfold jobAppHandler
  rw [h, hf]
  simp [hv]

theorem jobAppHandler_dispatch (env : Env) (send : MailOptions → Except String Unit)
    (req : JobAppRequest) (vr : ValidationResult) (f : UploadedFile)
    (h : validateJobApplication req.body = .ok vr) (hv : vr.isValid = true)
    (hf : req.file = some f) :
    jobAppHandler env send req =
      (match send (jobAppMailOptions env req.body f), send (applicantMailOptions env req.body) with
       | .ok _, .ok _ => (Response.ok jobAppSuccessMessage,
           [jobAppMailOptions env req.body f, applicantMailOptions env req.body])
       | .error e, _ => (Response.serverError jobAppFailureMessage e,
           [jobAppMailOptions env req.body f, applicantMailOptions env req.body])
       | .ok _, .error e => (Response.serverError jobAppFailureMessage e,
           [jobAppMailOptions env req.body f, applicantMailOptions env req.body])) := by
  unfold jobAppHandler
  rw [h, hf]
  simp [hv]

theorem contactHandler_thrown (env : Env) (send : MailOptions → Except String Unit)
    (data : ContactData) (h : validateFormInput data = .error ()) :
    contactHandler env send data = (.serverError contactFailureMessage jsTypeErrorMessage, []) := by
  unfold contactHandler
  rw [h]

theorem contactHandler_invalid (env : Env) (send : MailOptions → Except String Unit)
    (data : ContactData) (vr : ValidationResult)
    (h : validateFormInput data = .ok vr) (hv : vr.isValid = false) :
    contactHandler env send data = (.badRequest vr.errors, []) := by
  unfold contactHandler
  rw [h]
  simp [hv]

theorem contactHandler_dispatch (env : Env) (send : MailOptions → Except String Unit)
    (data : ContactData) (vr : ValidationResult)
    (h : validateFormInput data = .ok vr) (hv : vr.isValid = true) :
    contactHandler env send data =
      (match send (clientMailOptions env data), send (userMailOptions env data) with
       | .ok _, .ok _ => (Response.ok contactSuccessMessage,
           [clientMailOptions env data, userMailOptions env data])
       | .error e, _ => (Response.serverError contactFailureMessage e,
           [clientMailOptions env data, userMailOptions env data])
       | .ok _, .error e => (Response.serverError contactFailureMessage e,
           [clientMailOptions env data, userMailOptions env data])) := by
  unfold contactHandler
  rw [h]
  simp [hv]

/-- Outcome of the `Promise.all` dispatch step, for either endpoint: both
messages are handed to the transporter, 200 exactly when both succeed,
otherwise 500 carrying a failing send's error text. -/
theorem dispatch_shape (send : MailOptions → Except String Unit) (m1 m2 : MailOptions)
    (okMsg failMsg : String) (r : Response × List MailOptions)
    (hr : r = (match send m1, send m2 with
       | .ok _, .ok _ => (Response.ok okMsg, [m1, m2])
       | .error e, _ => (Response.serverError failMsg e, [m1, m2])
       | .ok _, .error e => (Response.serverError failMsg e, [m1, m2]))) :
    r.2 = [m1, m2] ∧
    (r.1 = .ok okMsg ↔ send m1 = .ok () ∧ send m2 = .ok ()) ∧
    (¬ (send m1 = .ok () ∧ send m2 = .ok ()) →
      ∃ e, (send m1 = .error e ∨ send m2 = .error e) ∧
        r.1 = .serverError failMsg e) := by
  cases hs1 : send m1 with
  | error e =>
    rw [hs1] at hr
    subst hr
    refine ⟨rfl, ?_, ?_⟩
    · constructor
      · intro h; exact absurd h (by simp)
      · rintro ⟨h1, -⟩; exact absurd h1 (by simp)
    · intro _; exact ⟨e, Or.inl rfl, rfl⟩
  | ok u =>
    cases u
    cases hs2 : send m2 with
    | error e =>
      rw [hs1, hs2] at hr
      subst hr
      refine ⟨rfl, ?_, ?_⟩
      · constructor
        · intro h; exact absurd h (by simp)
        · rintro ⟨-, h2⟩; exact absurd h2 (by simp)
      · intro _; exact ⟨e, Or.inr rfl, rfl⟩
    | ok u2 =>
      cases u2
      rw [hs1, hs2] at hr
      subst hr
      refine ⟨rfl, ⟨fun _ => ⟨rfl, rfl⟩, fun _ => rfl⟩, ?_⟩
      intro hcon
      exact absurd ⟨rfl, rfl⟩ hcon

/-! ## Claim theorems -/

/-- C1: for every submission that passes validation (with an attached file
on the job-application path), exactly two messages are dispatched (the
internal notification and the acknowledgment), the handler responds 200
exactly when both dispatches succeed, and when either dispatch fails it
responds 500 with the generic failure message and the failing send's error
text — on both endpoints. -/
theorem dispatch_two_calls_all_or_nothing (env : Env)
    (send : MailOptions → Except String Unit)
    (req : JobAppRequest) (jvr : ValidationResult) (f : UploadedFile)
    (cd : ContactData) (cvr : ValidationResult)
    (hj : validateJobApplication req.body = .ok jvr) (hjv : jvr.isValid = true)
    (hf : req.file = some f)
    (hc : validateFormInput cd = .ok cvr) (hcv : cvr.isValid = true) :
    ((jobAppHandler env send req).2.length = 2 ∧
     (jobAppHandler env send req).2 =
        [jobAppMailOptions env req.body f, applicantMailOptions env req.body] ∧
     ((jobAppHandler env send req).1 = .ok jobAppSuccessMessage ↔
        send (jobAppMailOptions env req.body f) = .ok () ∧
        send (applicantMailOptions env req.body) = .ok ()) ∧
     (¬ (send (jobAppMailOptions env req.body f) = .ok () ∧
         send (applicantMailOptions env req.body) = .ok ()) →
       ∃ e, (send (jobAppMailOptions env req.body f) = .error e ∨
             send (applicantMailOptions env req.body) = .error e) ∧
         (jobAppHandler env send req).1 = .serverError jobAppFailureMessage e)) ∧
    ((contactHandler env send cd).2.length = 2 ∧
     (contactHandler env send cd).2 = [clientMailOptions env cd, userMailOptions env cd] ∧
     ((contactHandler env send cd).1 = .ok contactSuccessMessage ↔
        send (clientMailOptions env cd) = .ok () ∧ send (userMailOptions env cd) = .ok ()) ∧
     (¬ (send (clientMailOptions env cd) = .ok () ∧ send (userMailOptions env cd) = .ok ()) →
       ∃ e, (send (clientMailOptions env cd) = .error e ∨
             send (userMailOptions env cd) = .error e) ∧
         (contactHandler env send cd).1 = .serverError contactFailureMessage e)) := by
  have hja := dispatch_shape send (jobAppMailOptions env req.body f)
    (applicantMailOptions env req.body) jobAppSuccessMessage jobAppFailureMessage
    (jobAppHandler env send req) (jobAppHandler_dispatch env send req jvr f hj hjv hf)
  have hco := dispatch_shape send (clientMailOptions env cd) (userMailOptions env cd)
    contactSuccessMessage contactFailureMessage
    (contactHandler env send cd) (contactHandler_dispatch env send cd cvr hc hcv)
  exact ⟨⟨by rw [hja.1]; rfl, hja.1, hja.2.1, hja.2.2⟩, ⟨by rw [hco.1]; rfl, hco.1, hco.2.1, hco.2.2⟩⟩

/-- Witness for C1 at a concrete valid job application and contact
message, with a transporter that accepts every message. -/
theorem dispatch_two_calls_all_or_nothing_witness :
    (jobAppHandler ⟨"u@x", "c@x", "h@x"⟩ (fun _ => .ok ())
      ⟨⟨.str "J", .str "D", .str "a@b.com", .str "1234567890", .str "Dev", .str "Remote"⟩,
       some ⟨"cv.pdf", "filedata", "application/pdf"⟩⟩).2.length = 2 :=
  (dispatch_two_calls_all_or_nothing ⟨"u@x", "c@x", "h@x"⟩ (fun _ => .ok ())
    ⟨⟨.str "J", .str "D", .str "a@b.com", .str "1234567890", .str "Dev", .str "Remote"⟩,
     some ⟨"cv.pdf", "filedata", "application/pdf"⟩⟩ ⟨true, []⟩
    ⟨"cv.pdf", "filedata", "application/pdf"⟩
    ⟨.str "Jo", .str "a@b.com", .undefined, .str "Hey", .str "0123456789"⟩ ⟨true, []⟩
    rfl rfl rfl rfl rfl).1.1

/-- C2: for every payload on which a validator returns a result (rather
than throwing), `isValid` is true exactly when the `errors` mapping is
empty — for `validateJobApplication` and for `validateFormInput` (the
latter textually identical in the main server file and `server.js`). -/
theorem isValid_iff_errors_empty (jd : JobAppData) (cd : ContactData)
    (jvr cvr : ValidationResult)
    (hj : validateJobApplication jd = .ok jvr) (hc : validateFormInput cd = .ok cvr) :
    (jvr.isValid = true ↔ jvr.errors = []) ∧ (cvr.isValid = true ↔ cvr.errors = []) := by
  obtain ⟨-, -, -, -, -, hsj⟩ := validateJobApplication_ok jd jvr hj
  obtain ⟨-, -, -, -, -, -, -, -, -, hsc⟩ := validateFormInput_ok cd cvr hc
  exact ⟨isValid_iff_of_shape jvr hsj, isValid_iff_of_shape cvr hsc⟩

/-- Witness for C2 at a fully valid job application and a contact request
with every field missing. -/
theorem isValid_iff_errors_empty_witness :
    (((⟨true, []⟩ : ValidationResult).isValid = true ↔
        (⟨true, []⟩ : ValidationResult).errors = []) ∧
     ((⟨false, [("name", "Valid name is required"), ("email", "Valid email is required"),
                ("subject", "Subject is required"),
                ("message", "Message must be at least 10 characters")]⟩ :
         ValidationResult).isValid = true ↔
        (⟨false, [("name", "Valid name is required"), ("email", "Valid email is required"),
                  ("subject", "Subject is required"),
                  ("message", "Message must be at least 10 characters")]⟩ :
           ValidationResult).errors = [])) :=
  isValid_iff_errors_empty
    ⟨.str "J", .str "D", .str "a@b.com", .str "1234567890", .undefined, .undefined⟩
    ⟨.undefined, .undefined, .undefined, .undefined, .undefined⟩
    ⟨true, []⟩
    ⟨false, [("name", "Valid name is required"), ("email", "Valid email is required"),
             ("subject", "Subject is required"),
             ("message", "Message must be at least 10 characters")]⟩
    rfl rfl

/-- C3 counterexample: in the main server file, the contact-form internal
notification also carries a cc to the configured HR address, so the
contact-message notification does have an HR copy there. -/
theorem contact_notification_hr_cc_cex :
    (clientMailOptions ⟨"user@xemsoft.test", "client@xemsoft.test", "hr@xemsoft.test"⟩
        ⟨.str "John", .str "j@x.com", .undefined, .str "Hello", .str "A fine message"⟩).cc =
      some "hr@xemsoft.test" ∧
    (clientMailOptions ⟨"user@xemsoft.test", "client@xemsoft.test", "hr@xemsoft.test"⟩
        ⟨.str "John", .str "j@x.com", .undefined, .str "Hello", .str "A fine message"⟩).cc ≠
      none :=
  ⟨rfl, by rw [show (clientMailOptions ⟨"user@xemsoft.test", "client@xemsoft.test", "hr@xemsoft.test"⟩ ⟨.str "John", .str "j@x.com", .undefined, .str "Hello", .str "A fine message"⟩).cc = some "hr@xemsoft.test" from rfl]; simp⟩

/-- C3 (amended): every internal notification is addressed to the
configured client address; the job-application notification and the main
server's contact notification both copy the configured HR address, and
only the standalone `server.js` contact notification has no HR copy. -/
theorem notification_recipients (env : Env) (b : JobAppData) (f : UploadedFile)
    (c : ContactData) :
    (jobAppMailOptions env b f).toAddr = env.CLIENT_EMAIL ∧
    (jobAppMailOptions env b f).cc = some env.HR_EMAIL ∧
    (clientMailOptions env c).toAddr = env.CLIENT_EMAIL ∧
    (clientMailOptions env c).cc = some env.HR_EMAIL ∧
    (clientMailOptionsServerJs env c).toAddr = env.CLIENT_EMAIL ∧
    (clientMailOptionsServerJs env c).cc = none :=
  ⟨rfl, rfl, rfl, rfl, rfl, rfl⟩

/-- C4: a string e-mail field is accepted by both validators exactly when
it splits as a non-empty run of non-whitespace, non-(at) characters, an
`@`, such a run, a dot, and such a run; `a@b.com` is accepted while `a@b`
and `a.com` produce the email error. -/
theorem email_field_pattern :
    (∀ s : String, jaEmailErrors (JSVal.str s) = [] ↔ EmailSpecMatch s) ∧
    (∀ s : String, contactEmailErrors (JSVal.str s) = [] ↔ EmailSpecMatch s) ∧
    jaEmailErrors (JSVal.str "a@b.com") = [] ∧
    contactEmailErrors (JSVal.str "a@b.com") = [] ∧
    jaEmailErrors (JSVal.str "a@b") = [("email", "Valid email is required")] ∧
    contactEmailErrors (JSVal.str "a@b") = [("email", "Valid email is required")] ∧
    jaEmailErrors (JSVal.str "a.com") = [("email", "Valid email is required")] ∧
    contactEmailErrors (JSVal.str "a.com") = [("email", "Valid email is required")] :=
  ⟨jaEmail_accept_iff, contactEmail_accept_iff,
   by decide, by decide, by decide, by decide, by decide, by decide⟩

/-- C5: on the job-application path the missing-attachment check runs only
after field validation succeeds — a field-valid request without a file
gets a 400 whose errors mapping is exactly the `file` entry, while a
request with field errors gets exactly those field errors, whose keys
never include `file`. -/
theorem resume_check_after_field_validation (env : Env)
    (send : MailOptions → Except String Unit) (req : JobAppRequest) (vr : ValidationResult)
    (h : validateJobApplication req.body = .ok vr) :
    (vr.isValid = true → req.file = none →
      jobAppHandler env send req = (.badRequest [("file", "Resume is required")], [])) ∧
    (vr.isValid = false →
      jobAppHandler env send req = (.badRequest vr.errors, []) ∧
      "file" ∉ vr.errors.map Prod.fst) := by
  constructor
  · intro hv hf
    exact jobAppHandler_nofile env send req vr h hv hf
  · intro hv
    exact ⟨jobAppHandler_invalid env send req vr h hv,
           validateJobApplication_no_file_key req.body vr h⟩

/-- Witness for C5 at a field-valid job application without a file. -/
theorem resume_check_after_field_validation_witness :
    jobAppHandler ⟨"u@x", "c@x", "h@x"⟩ (fun _ => .ok ())
        ⟨⟨.str "J", .str "D", .str "a@b.com", .str "1234567890", .str "Dev", .str "Remote"⟩,
         none⟩ =
      (.badRequest [("file", "Resume is required")], []) :=
  (resume_check_after_field_validation ⟨"u@x", "c@x", "h@x"⟩ (fun _ => .ok ())
    ⟨⟨.str "J", .str "D", .str "a@b.com", .str "1234567890", .str "Dev", .str "Remote"⟩, none⟩
    ⟨true, []⟩ rfl).1 rfl rfl

/-- C6 counterexample: the string of nine digits, a tab and a digit is
accepted by the job-application phone validation (the regex class admits
every JavaScript whitespace character), but a tab is not a digit, space,
hyphen or parenthesis, so the pattern as the claim words it does not
match. -/
theorem jobapp_phone_whitespace_cex :
    jaPhoneErrors (JSVal.str "123456789\t0") = [] ∧
    ¬ PhoneSpecMatch spacePhoneChar "123456789\t0" := by
  refine ⟨by decide, ?_⟩
  rintro ⟨t, ht | ht, hlen, hall⟩
  · have hmem : ('\t' : Char) ∈ t := by rw [← ht]; decide
    exact absurd (hall '\t' hmem) (by decide)
  · have hhead : ("123456789\t0".toList).head? = some '+' := by rw [ht]; rfl
    exact absurd hhead (by decide)

/-- C6 (amended): a string phone field is accepted by the job-application
validator exactly when it is an optional leading plus sign followed by at
least ten characters, each a digit, a JavaScript whitespace character
(not only the plain space), a hyphen or a parenthesis; the two quoted
examples behave as stated. -/
theorem jobapp_phone_pattern :
    (∀ s : String, jaPhoneErrors (JSVal.str s) = [] ↔ PhoneSpecMatch phoneChar s) ∧
    jaPhoneErrors (JSVal.str "+1 (555) 123-4567") = [] ∧
    jaPhoneErrors (JSVal.str "abc") = [("phone", "Valid phone number is required")] :=
  ⟨jaPhone_accept_iff, by decide, by decide⟩

/-- The contact phone check on a non-empty string field: strip the
non-digits and flag a length outside ten to fifteen. -/
theorem contactPhoneErrors_str (s : String) (hne : s ≠ "") :
    contactPhoneErrors (JSVal.str s) =
      .ok (if (stripNonDigits s).length < 10 || (stripNonDigits s).length > 15 then
             [("phone", "Invalid phone number length")]
           else []) := by
  have ht : jsTruthy (JSVal.str s) = true := by
    simp only [jsTruthy, bne_iff_ne, ne_eq]
    exact hne
  unfold contactPhoneErrors
  rw [if_pos ht]

/-- C7 counterexample: the empty string is a supplied `fullPhoneNumber`
value whose digit count (zero) lies outside the range, yet no phone error
is recorded, because the check only runs on truthy values. -/
theorem contact_phone_empty_string_cex :
    contactPhoneErrors (JSVal.str "") = .ok [] ∧ (stripNonDigits "").length < 10 :=
  ⟨rfl, by decide⟩

/-- C7 (amended): `fullPhoneNumber` is optional and the check is skipped
when the field is absent or the empty string; on any other string the
non-digits are stripped and a phone error is recorded exactly when the
remaining digit count is outside ten to fifteen — in particular the three
quoted examples behave as stated. -/
theorem contact_phone_rule :
    contactPhoneErrors JSVal.undefined = .ok [] ∧
    contactPhoneErrors (JSVal.str "") = .ok [] ∧
    (∀ s : String, s ≠ "" →
      (contactPhoneErrors (JSVal.str s) = .ok [] ↔
        10 ≤ (stripNonDigits s).length ∧ (stripNonDigits s).length ≤ 15)) ∧
    contactPhoneErrors (JSVal.str "123-456-7890") = .ok [] ∧
    contactPhoneErrors (JSVal.str "12345") = .ok [("phone", "Invalid phone number length")] ∧
    (∀ s : String, 16 ≤ (stripNonDigits s).length →
      contactPhoneErrors (JSVal.str s) = .ok [("phone", "Invalid phone number length")]) := by
  refine ⟨rfl, rfl, ?_, rfl, rfl, ?_⟩
  · intro s hne
    rw [contactPhoneErrors_str s hne]
    by_cases hcond :
        ((stripNonDigits s).length < 10 || (stripNonDigits s).length > 15) = true
    · rw [if_pos hcond]
      simp only [Bool.or_eq_true, decide_eq_true_eq] at hcond
      constructor
      · intro h
        exact absurd h (by simp)
      · rintro ⟨h1, h2⟩
        exfalso
        rcases hcond with h | h <;> omega
    · rw [if_neg hcond]
      simp only [Bool.or_eq_true, decide_eq_true_eq, not_or, not_lt] at hcond
      exact ⟨fun _ => ⟨hcond.1, hcond.2⟩, fun _ => rfl⟩
  · intro s hlen
    have hne : s ≠ "" := by
      intro h
      rw [h] at hlen
      simp [stripNonDigits] at hlen
    rw [contactPhoneErrors_str s hne]
    have hgt : (stripNonDigits s).length > 15 := by omega
    simp [hgt]

/-- Witness for C7 (amended) at the string `abc`, which is present but
strips to zero digits. -/
theorem contact_phone_rule_witness :
    contactPhoneErrors (JSVal.str "abc") = .ok [] ↔
      10 ≤ (stripNonDigits "abc").length ∧ (stripNonDigits "abc").length ≤ 15 :=
  contact_phone_rule.2.2.1 "abc" (by decide)

/-- An error list that is empty or a known singleton cannot contain a
different entry. -/
theorem not_mem_of_cases (x y : String × String) (e : List (String × String))
    (hcase : e = [] ∨ e = [y]) (hne : x ≠ y) : x ∉ e := by
  rcases hcase with rfl | rfl
  · simp
  · simp only [List.mem_singleton]
    exact hne

/-- The firstName entry is produced exactly when the firstName rule is
violated: the field is absent, or a string that trims to empty. -/
theorem jaFirstNameErrors_mem_iff (v : JSVal) (e : List (String × String))
    (h : jaFirstNameErrors v = .ok e) :
    ("firstName", "First name is required") ∈ e ↔
      v = .undefined ∨ ∃ s, v = .str s ∧ jsTrim s = "" := by
  cases v with
  | undefined =>
    simp only [jaFirstNameErrors, Except.ok.injEq] at h
    subst h
    simp
  | str s =>
    simp only [jaFirstNameErrors, Except.ok.injEq] at h
    subst h
    constructor
    · intro hm
      by_cases hcond : jsTrim s = ""
      · exact Or.inr ⟨s, rfl, hcond⟩
      · rw [if_neg (by simp only [beq_iff_eq]; exact hcond)] at hm
        exact absurd hm (by simp)
    · rintro (habs | ⟨s', hs', htrim⟩)
      · exact absurd habs (by simp)
      · injection hs' with hss
        subst hss
        rw [if_pos (by simp only [beq_iff_eq]; exact htrim)]
        simp
  | num n => simp [jaFirstNameErrors] at h

/-- The lastName entry is produced exactly when the lastName rule is
violated. -/
theorem jaLastNameErrors_mem_iff (v : JSVal) (e : List (String × String))
    (h : jaLastNameErrors v = .ok e) :
    ("lastName", "Last name is required") ∈ e ↔
      v = .undefined ∨ ∃ s, v = .str s ∧ jsTrim s = "" := by
  cases v with
  | undefined =>
    simp only [jaLastNameErrors, Except.ok.injEq] at h
    subst h
    simp
  | str s =>
    simp only [jaLastNameErrors, Except.ok.injEq] at h
    subst h
    constructor
    · intro hm
      by_cases hcond : jsTrim s = ""
      · exact Or.inr ⟨s, rfl, hcond⟩
      · rw [if_neg (by simp only [beq_iff_eq]; exact hcond)] at hm
        exact absurd hm (by simp)
    · rintro (habs | ⟨s', hs', htrim⟩)
      · exact absurd habs (by simp)
      · injection hs' with hss
        subst hss
        rw [if_pos (by simp only [beq_iff_eq]; exact htrim)]
        simp
  | num n => simp [jaLastNameErrors] at h

/-- The email entry is produced exactly when the email rule is violated:
the field is falsy or fails the regex. -/
theorem jaEmailErrors_mem_iff (v : JSVal) :
    ("email", "Valid email is required") ∈ jaEmailErrors v ↔
      (jsTruthy v && emailRegexTest (jsToString v)) = false := by
  unfold jaEmailErrors
  by_cases hcond : (jsTruthy v && emailRegexTest (jsToString v)) = true
  · rw [if_pos hcond]
    simp [hcond]
  · rw [if_neg hcond]
    simp only [Bool.not_eq_true] at hcond
    simp [hcond]

/-- The phone entry of the job application is produced exactly when the
phone rule is violated. -/
theorem jaPhoneErrors_mem_iff (v : JSVal) :
    ("phone", "Valid phone number is required") ∈ jaPhoneErrors v ↔
      (jsTruthy v && phoneRegexTest (jsToString v)) = false := by
  unfold jaPhoneErrors
  by_cases hcond : (jsTruthy v && phoneRegexTest (jsToString v)) = true
  · rw [if_pos hcond]
    simp [hcond]
  · rw [if_neg hcond]
    simp only [Bool.not_eq_true] at hcond
    simp [hcond]

/-- The contact name entry is produced exactly when the name rule is
violated: the field is falsy, or a string whose trimmed length is below
two. -/
theorem contactNameErrors_mem_iff (v : JSVal) (e : List (String × String))
    (h : contactNameErrors v = .ok e) :
    ("name", "Valid name is required") ∈ e ↔
      jsTruthy v = false ∨ ∃ s, v = .str s ∧ (jsTrim s).length < 2 := by
  unfold contactNameErrors at h
  by_cases htr : jsTruthy v = true
  · rw [if_pos htr] at h
    cases v with
    | undefined => simp at h
    | str s =>
      simp only [Except.ok.injEq] at h
      subst h
      constructor
      · intro hm
        by_cases hlen : (jsTrim s).length < 2
        · exact Or.inr ⟨s, rfl, hlen⟩
        · rw [if_neg hlen] at hm
          exact absurd hm (by simp)
      · rintro (hfalse | ⟨s', hs', hlen⟩)
        · rw [htr] at hfalse
          exact absurd hfalse (by simp)
        · injection hs' with hss
          subst hss
          rw [if_pos hlen]
          simp
    | num n => simp at h
  · rw [if_neg htr] at h
    simp only [Except.ok.injEq] at h
    subst h
    simp only [Bool.not_eq_true] at htr
    exact ⟨fun _ => Or.inl htr, fun _ => by simp⟩

/-- The contact email entry is produced exactly when the email rule is
violated. -/
theorem contactEmailErrors_mem_iff (v : JSVal) :
    ("email", "Valid email is required") ∈ contactEmailErrors v ↔
      (jsTruthy v && emailRegexTest (jsToString v)) = false := by
  unfold contactEmailErrors
  by_cases hcond : (jsTruthy v && emailRegexTest (jsToString v)) = true
  · rw [if_pos hcond]
    simp [hcond]
  · rw [if_neg hcond]
    simp only [Bool.not_eq_true] at hcond
    simp [hcond]

/-- The contact phone entry is produced exactly when the phone rule is
violated: a non-empty string whose digit count is outside ten to
fifteen. -/
theorem contactPhoneErrors_mem_iff (v : JSVal) (e : List (String × String))
    (h : contactPhoneErrors v = .ok e) :
    ("phone", "Invalid phone number length") ∈ e ↔
      ∃ s, v = .str s ∧ s ≠ "" ∧
        ((stripNonDigits s).length < 10 ∨ 15 < (stripNonDigits s).length) := by
  unfold contactPhoneErrors at h
  by_cases htr : jsTruthy v = true
  · rw [if_pos htr] at h
    cases v with
    | undefined => simp at h
    | str s =>
      simp only [Except.ok.injEq] at h
      subst h
      have hsne : s ≠ "" := by
        simp only [jsTruthy, bne_iff_ne, ne_eq] at htr
        exact htr
      constructor
      · intro hm
        by_cases hb : ((stripNonDigits s).length < 10 || (stripNonDigits s).length > 15) = true
        · refine ⟨s, rfl, hsne, ?_⟩
          simpa [Bool.or_eq_true, decide_eq_true_eq] using hb
        · rw [if_neg hb] at hm
          exact absurd hm (by simp)
      · rintro ⟨s', hs', -, hcond⟩
        injection hs' with hss
        subst hss
        have hb : ((stripNonDigits s).length < 10 || (stripNonDigits s).length > 15) = true := by
          simpa [Bool.or_eq_true, decide_eq_true_eq] using hcond
        rw [if_pos hb]
        simp
    | num n => simp at h
  · rw [if_neg htr] at h
    simp only [Except.ok.injEq] at h
    subst h
    constructor
    · intro hm
      exact absurd hm (by simp)
    · rintro ⟨s, hs, hne, -⟩
      subst hs
      refine absurd ?_ htr
      simp only [jsTruthy, bne_iff_ne, ne_eq]
      exact hne

/-- The subject entry is produced exactly when the subject rule is
violated. -/
theorem contactSubjectErrors_mem_iff (v : JSVal) (e : List (String × String))
    (h : contactSubjectErrors v = .ok e) :
    ("subject", "Subject is required") ∈ e ↔
      jsTruthy v = false ∨ ∃ s, v = .str s ∧ (jsTrim s).length < 3 := by
  unfold contactSubjectErrors at h
  by_cases htr : jsTruthy v = true
  · rw [if_pos htr] at h
    cases v with
    | undefined => simp at h
    | str s =>
      simp only [Except.ok.injEq] at h
      subst h
      constructor
      · intro hm
        by_cases hlen : (jsTrim s).length < 3
        · exact Or.inr ⟨s, rfl, hlen⟩
        · rw [if_neg hlen] at hm
          exact absurd hm (by simp)
      · rintro (hfalse | ⟨s', hs', hlen⟩)
        · rw [htr] at hfalse
          exact absurd hfalse (by simp)
        · injection hs' with hss
          subst hss
          rw [if_pos hlen]
          simp
    | num n => simp at h
  · rw [if_neg htr] at h
    simp only [Except.ok.injEq] at h
    subst h
    simp only [Bool.not_eq_true] at htr
    exact ⟨fun _ => Or.inl htr, fun _ => by simp⟩

/-- The message entry is produced exactly when the message rule is
violated. -/
theorem contactMessageErrors_mem_iff (v : JSVal) (e : List (String × String))
    (h : contactMessageErrors v = .ok e) :
    ("message", "Message must be at least 10 characters") ∈ e ↔
      jsTruthy v = false ∨ ∃ s, v = .str s ∧ (jsTrim s).length < 10 := by
  unfold contactMessageErrors at h
  by_cases htr : jsTruthy v = true
  · rw [if_pos htr] at h
    cases v with
    | undefined => simp at h
    | str s =>
      simp only [Except.ok.injEq] at h
      subst h
      constructor
      · intro hm
        by_cases hlen : (jsTrim s).length < 10
        · exact Or.inr ⟨s, rfl, hlen⟩
        · rw [if_neg hlen] at hm
          exact absurd hm (by simp)
      · rintro (hfalse | ⟨s', hs', hlen⟩)
        · rw [htr] at hfalse
          exact absurd hfalse (by simp)
        · injection hs' with hss
          subst hss
          rw [if_pos hlen]
          simp
    | num n => simp at h
  · rw [if_neg htr] at h
    simp only [Except.ok.injEq] at h
    subst h
    simp only [Bool.not_eq_true] at htr
    exact ⟨fun _ => Or.inl htr, fun _ => by simp⟩

/-- C8: validation is not fail-fast — whenever a validator returns a
result, each rule (required presence, trimmed length, email format, phone
format or length) contributes its own entry to the errors mapping exactly
when it is violated, and all these equivalences hold simultaneously for
the same submission, so multiple simultaneous violations all appear
together; any recorded entry makes isValid false, and in particular every
missing required field produces its error key with isValid false. -/
theorem violations_all_contribute_errors (jd : JobAppData) (cd : ContactData)
    (jvr cvr : ValidationResult)
    (hj : validateJobApplication jd = .ok jvr) (hc : validateFormInput cd = .ok cvr) :
    ((("firstName", "First name is required") ∈ jvr.errors ↔
        jd.firstName = .undefined ∨ ∃ s, jd.firstName = .str s ∧ jsTrim s = "") ∧
     (("lastName", "Last name is required") ∈ jvr.errors ↔
        jd.lastName = .undefined ∨ ∃ s, jd.lastName = .str s ∧ jsTrim s = "") ∧
     (("email", "Valid email is required") ∈ jvr.errors ↔
        (jsTruthy jd.email && emailRegexTest (jsToString jd.email)) = false) ∧
     (("phone", "Valid phone number is required") ∈ jvr.errors ↔
        (jsTruthy jd.phone && phoneRegexTest (jsToString jd.phone)) = false) ∧
     (jvr.errors ≠ [] → jvr.isValid = false) ∧
     (jd.firstName = .undefined →
        ("firstName", "First name is required") ∈ jvr.errors ∧ jvr.isValid = false) ∧
     (jd.lastName = .undefined →
        ("lastName", "Last name is required") ∈ jvr.errors ∧ jvr.isValid = false) ∧
     (jd.email = .undefined →
        ("email", "Valid email is required") ∈ jvr.errors ∧ jvr.isValid = false) ∧
     (jd.phone = .undefined →
        ("phone", "Valid phone number is required") ∈ jvr.errors ∧ jvr.isValid = false)) ∧
    ((("name", "Valid name is required") ∈ cvr.errors ↔
        jsTruthy cd.name = false ∨ ∃ s, cd.name = .str s ∧ (jsTrim s).length < 2) ∧
     (("email", "Valid email is required") ∈ cvr.errors ↔
        (jsTruthy cd.email && emailRegexTest (jsToString cd.email)) = false) ∧
     (("phone", "Invalid phone number length") ∈ cvr.errors ↔
        ∃ s, cd.fullPhoneNumber = .str s ∧ s ≠ "" ∧
          ((stripNonDigits s).length < 10 ∨ 15 < (stripNonDigits s).length)) ∧
     (("subject", "Subject is required") ∈ cvr.errors ↔
        jsTruthy cd.subject = false ∨ ∃ s, cd.subject = .str s ∧ (jsTrim s).length < 3) ∧
     (("message", "Message must be at least 10 characters") ∈ cvr.errors ↔
        jsTruthy cd.message = false ∨ ∃ s, cd.message = .str s ∧ (jsTrim s).length < 10) ∧
     (cvr.errors ≠ [] → cvr.isValid = false) ∧
     (cd.name = .undefined →
        ("name", "Valid name is required") ∈ cvr.errors ∧ cvr.isValid = false) ∧
     (cd.email = .undefined →
        ("email", "Valid email is required") ∈ cvr.errors ∧ cvr.isValid = false) ∧
     (cd.subject = .undefined →
        ("subject", "Subject is required") ∈ cvr.errors ∧ cvr.isValid = false) ∧
     (cd.message = .undefined →
        ("message", "Message must be at least 10 characters") ∈ cvr.errors ∧
          cvr.isValid = false)) := by
  obtain ⟨e1, e2, h1, h2, herrj, hsj⟩ := validateJobApplication_ok jd jvr hj
  obtain ⟨f1, f3, f4, f5, g1, g2, g3, g4, herrc, hsc⟩ := validateFormInput_ok cd cvr hc
  have loc1 : (("firstName", "First name is required") ∈ jvr.errors) ↔
      ("firstName", "First name is required") ∈ e1 := by
    rw [herrj]
    simp only [List.append_assoc, List.mem_append]
    constructor
    · rintro (hm | hm | hm | hm)
      · exact hm
      · exact absurd hm (not_mem_of_cases _ _ _ (jaLastNameErrors_cases _ _ h2) (by decide))
      · exact absurd hm (not_mem_of_cases _ _ _ (jaEmailErrors_cases jd.email) (by decide))
      · exact absurd hm (not_mem_of_cases _ _ _ (jaPhoneErrors_cases jd.phone) (by decide))
    · exact fun hm => Or.inl hm
  have loc2 : (("lastName", "Last name is required") ∈ jvr.errors) ↔
      ("lastName", "Last name is required") ∈ e2 := by
    rw [herrj]
    simp only [List.append_assoc, List.mem_append]
    constructor
    · rintro (hm | hm | hm | hm)
      · exact absurd hm (not_mem_of_cases _ _ _ (jaFirstNameErrors_cases _ _ h1) (by decide))
      · exact hm
      · exact absurd hm (not_mem_of_cases _ _ _ (jaEmailErrors_cases jd.email) (by decide))
      · exact absurd hm (not_mem_of_cases _ _ _ (jaPhoneErrors_cases jd.phone) (by decide))
    · exact fun hm => Or.inr (Or.inl hm)
  have loc3 : (("email", "Valid email is required") ∈ jvr.errors) ↔
      ("email", "Valid email is required") ∈ jaEmailErrors jd.email := by
    rw [herrj]
    simp only [List.append_assoc, List.mem_append]
    constructor
    · rintro (hm | hm | hm | hm)
      · exact absurd hm (not_mem_of_cases _ _ _ (jaFirstNameErrors_cases _ _ h1) (by decide))
      · exact absurd hm (not_mem_of_cases _ _ _ (jaLastNameErrors_cases _ _ h2) (by decide))
      · exact hm
      · exact absurd hm (not_mem_of_cases _ _ _ (jaPhoneErrors_cases jd.phone) (by decide))
    · exact fun hm => Or.inr (Or.inr (Or.inl hm))
  have loc4 : (("phone", "Valid phone number is required") ∈ jvr.errors) ↔
      ("phone", "Valid phone number is required") ∈ jaPhoneErrors jd.phone := by
    rw [herrj]
    simp only [List.append_assoc, List.mem_append]
    constructor
    · rintro (hm | hm | hm | hm)
      · exact absurd hm (not_mem_of_cases _ _ _ (jaFirstNameErrors_cases _ _ h1) (by decide))
      · exact absurd hm (not_mem_of_cases _ _ _ (jaLastNameErrors_cases _ _ h2) (by decide))
      · exact absurd hm (not_mem_of_cases _ _ _ (jaEmailErrors_cases jd.email) (by decide))
      · exact hm
    · exact fun hm => Or.inr (Or.inr (Or.inr hm))
  have iff1 := loc1.trans (jaFirstNameErrors_mem_iff _ _ h1)
  have iff2 := loc2.trans (jaLastNameErrors_mem_iff _ _ h2)
  have iff3 := loc3.trans (jaEmailErrors_mem_iff jd.email)
  have iff4 := loc4.trans (jaPhoneErrors_mem_iff jd.phone)
  have hinvj : jvr.errors ≠ [] → jvr.isValid = false := by
    intro hne
    rw [hsj]
    cases herr : jvr.errors with
    | nil => exact absurd herr hne
    | cons a t => rfl
  have cloc1 : (("name", "Valid name is required") ∈ cvr.errors) ↔
      ("name", "Valid name is required") ∈ f1 := by
    rw [herrc]
    simp only [List.append_assoc, List.mem_append]
    constructor
    · rintro (hm | hm | hm | hm | hm)
      · exact hm
      · exact absurd hm (not_mem_of_cases _ _ _ (contactEmailErrors_cases cd.email) (by decide))
      · exact absurd hm (not_mem_of_cases _ _ _ (contactPhoneErrors_cases _ _ g2) (by decide))
      · exact absurd hm (not_mem_of_cases _ _ _ (contactSubjectErrors_cases _ _ g3) (by decide))
      · exact absurd hm (not_mem_of_cases _ _ _ (contactMessageErrors_cases _ _ g4) (by decide))
    · exact fun hm => Or.inl hm
  have cloc2 : (("email", "Valid email is required") ∈ cvr.errors) ↔
      ("email", "Valid email is required") ∈ contactEmailErrors cd.email := by
    rw [herrc]
    simp only [List.append_assoc, List.mem_append]
    constructor
    · rintro (hm | hm | hm | hm | hm)
      · exact absurd hm (not_mem_of_cases _ _ _ (contactNameErrors_cases _ _ g1) (by decide))
      · exact hm
      · exact absurd hm (not_mem_of_cases _ _ _ (contactPhoneErrors_cases _ _ g2) (by decide))
      · exact absurd hm (not_mem_of_cases _ _ _ (contactSubjectErrors_cases _ _ g3) (by decide))
      · exact absurd hm (not_mem_of_cases _ _ _ (contactMessageErrors_cases _ _ g4) (by decide))
    · exact fun hm => Or.inr (Or.inl hm)
  have cloc3 : (("phone", "Invalid phone number length") ∈ cvr.errors) ↔
      ("phone", "Invalid phone number length") ∈ f3 := by
    rw [herrc]
    simp only [List.append_assoc, List.mem_append]
    constructor
    · rintro (hm | hm | hm | hm | hm)
      · exact absurd hm (not_mem_of_cases _ _ _ (contactNameErrors_cases _ _ g1) (by decide))
      · exact absurd hm (not_mem_of_cases _ _ _ (contactEmailErrors_cases cd.email) (by decide))
      · exact hm
      · exact absurd hm (not_mem_of_cases _ _ _ (contactSubjectErrors_cases _ _ g3) (by decide))
      · exact absurd hm (not_mem_of_cases _ _ _ (contactMessageErrors_cases _ _ g4) (by decide))
    · exact fun hm => Or.inr (Or.inr (Or.inl hm))
  have cloc4 : (("subject", "Subject is required") ∈ cvr.errors) ↔
      ("subject", "Subject is required") ∈ f4 := by
    rw [herrc]
    simp only [List.append_assoc, List.mem_append]
    constructor
    · rintro (hm | hm | hm | hm | hm)
      · exact absurd hm (not_mem_of_cases _ _ _ (contactNameErrors_cases _ _ g1) (by decide))
      · exact absurd hm (not_mem_of_cases _ _ _ (contactEmailErrors_cases cd.email) (by decide))
      · exact absurd hm (not_mem_of_cases _ _ _ (contactPhoneErrors_cases _ _ g2) (by decide))
      · exact hm
      · exact absurd hm (not_mem_of_cases _ _ _ (contactMessageErrors_cases _ _ g4) (by decide))
    · exact fun hm => Or.inr (Or.inr (Or.inr (Or.inl hm)))
  have cloc5 : (("message", "Message must be at least 10 characters") ∈ cvr.errors) ↔
      ("message", "Message must be at least 10 characters") ∈ f5 := by
    rw [herrc]
    simp only [List.append_assoc, List.mem_append]
    constructor
    · rintro (hm | hm | hm | hm | hm)
      · exact absurd hm (not_mem_of_cases _ _ _ (contactNameErrors_cases _ _ g1) (by decide))
      · exact absurd hm (not_mem_of_cases _ _ _ (contactEmailErrors_cases cd.email) (by decide))
      · exact absurd hm (not_mem_of_cases _ _ _ (contactPhoneErrors_cases _ _ g2) (by decide))
      · exact absurd hm (not_mem_of_cases _ _ _ (contactSubjectErrors_cases _ _ g3) (by decide))
      · exact hm
    · exact fun hm => Or.inr (Or.inr (Or.inr (Or.inr hm)))
  have ciff1 := cloc1.trans (contactNameErrors_mem_iff _ _ g1)
  have ciff2 := cloc2.trans (contactEmailErrors_mem_iff cd.email)
  have ciff3 := cloc3.trans (contactPhoneErrors_mem_iff _ _ g2)
  have ciff4 := cloc4.trans (contactSubjectErrors_mem_iff _ _ g3)
  have ciff5 := cloc5.trans (contactMessageErrors_mem_iff _ _ g4)
  have hinvc : cvr.errors ≠ [] → cvr.isValid = false := by
    intro hne
    rw [hsc]
    cases herr : cvr.errors with
    | nil => exact absurd herr hne
    | cons a t => rfl
  refine ⟨⟨iff1, iff2, iff3, iff4, hinvj, ?_, ?_, ?_, ?_⟩,
          ⟨ciff1, ciff2, ciff3, ciff4, ciff5, hinvc, ?_, ?_, ?_, ?_⟩⟩
  · intro hu
    have hm := iff1.mpr (Or.inl hu)
    exact ⟨hm, hinvj (List.ne_nil_of_mem hm)⟩
  · intro hu
    have hm := iff2.mpr (Or.inl hu)
    exact ⟨hm, hinvj (List.ne_nil_of_mem hm)⟩
  · intro hu
    have hm := iff3.mpr (by rw [hu]; decide)
    exact ⟨hm, hinvj (List.ne_nil_of_mem hm)⟩
  · intro hu
    have hm := iff4.mpr (by rw [hu]; decide)
    exact ⟨hm, hinvj (List.ne_nil_of_mem hm)⟩
  · intro hu
    have hm := ciff1.mpr (Or.inl (by rw [hu]; rfl))
    exact ⟨hm, hinvc (List.ne_nil_of_mem hm)⟩
  · intro hu
    have hm := ciff2.mpr (by rw [hu]; decide)
    exact ⟨hm, hinvc (List.ne_nil_of_mem hm)⟩
  · intro hu
    have hm := ciff4.mpr (Or.inl (by rw [hu]; rfl))
    exact ⟨hm, hinvc (List.ne_nil_of_mem hm)⟩
  · intro hu
    have hm := ciff5.mpr (Or.inl (by rw [hu]; rfl))
    exact ⟨hm, hinvc (List.ne_nil_of_mem hm)⟩

/-- Witness for C8: with every field missing, the firstName rule
contributes its entry and invalidates the result; and for a contact
request with a malformed email and a too-short subject together, both
entries appear simultaneously in the errors mapping. -/
theorem violations_all_contribute_errors_witness :
    (("firstName", "First name is required") ∈
        (⟨false, [("firstName", "First name is required"), ("lastName", "Last name is required"),
                  ("email", "Valid email is required"),
                  ("phone", "Valid phone number is required")]⟩ : ValidationResult).errors ∧
      (⟨false, [("firstName", "First name is required"), ("lastName", "Last name is required"),
                ("email", "Valid email is required"),
                ("phone", "Valid phone number is required")]⟩ :
          ValidationResult).isValid = false) ∧
    (("email", "Valid email is required") ∈
        (⟨false, [("email", "Valid email is required"), ("subject", "Subject is required")]⟩ :
          ValidationResult).errors ∧
     ("subject", "Subject is required") ∈
        (⟨false, [("email", "Valid email is required"), ("subject", "Subject is required")]⟩ :
          ValidationResult).errors) := by
  constructor
  · exact (violations_all_contribute_errors
      ⟨.undefined, .undefined, .undefined, .undefined, .undefined, .undefined⟩
      ⟨.undefined, .undefined, .undefined, .undefined, .undefined⟩
      ⟨false, [("firstName", "First name is required"), ("lastName", "Last name is required"),
               ("email", "Valid email is required"),
               ("phone", "Valid phone number is required")]⟩
      ⟨false, [("name", "Valid name is required"), ("email", "Valid email is required"),
               ("subject", "Subject is required"),
               ("message", "Message must be at least 10 characters")]⟩
      rfl rfl).1.2.2.2.2.2.1 rfl
  · have h := (violations_all_contribute_errors
      ⟨.str "J", .str "D", .str "a@b.com", .str "1234567890", .undefined, .undefined⟩
      ⟨.str "Jo", .str "a@b", .undefined, .str "hm", .str "long enough msg"⟩
      ⟨true, []⟩
      ⟨false, [("email", "Valid email is required"), ("subject", "Subject is required")]⟩
      rfl rfl).2
    exact ⟨h.2.1.mpr (by decide), h.2.2.2.1.mpr (Or.inr ⟨"hm", rfl, by decide⟩)⟩

/-- C9: rejection is terminal and precedes dispatch — a request whose
validation returns at least one error, or a job application without a
file, is answered 400 with the errors mapping and no message is ever
handed to the transporter. -/
theorem rejected_request_no_dispatch (env : Env) (send : MailOptions → Except String Unit)
    (req : JobAppRequest) (jvr : ValidationResult) (cd : ContactData) (cvr : ValidationResult)
    (hj : validateJobApplication req.body = .ok jvr) (hc : validateFormInput cd = .ok cvr) :
    (jvr.isValid = false → jobAppHandler env send req = (.badRequest jvr.errors, [])) ∧
    (jvr.isValid = true → req.file = none →
      jobAppHandler env send req = (.badRequest [("file", "Resume is required")], [])) ∧
    (cvr.isValid = false → contactHandler env send cd = (.badRequest cvr.errors, [])) :=
  ⟨fun hv => jobAppHandler_invalid env send req jvr hj hv,
   fun hv hf => jobAppHandler_nofile env send req jvr hj hv hf,
   fun hv => contactHandler_invalid env send cd cvr hc hv⟩

/-- Witness for C9 at a contact request with every field missing. -/
theorem rejected_request_no_dispatch_witness :
    contactHandler ⟨"u@x", "c@x", "h@x"⟩ (fun _ => .ok ())
        ⟨.undefined, .undefined, .undefined, .undefined, .undefined⟩ =
      (.badRequest [("name", "Valid name is required"), ("email", "Valid email is required"),
                    ("subject", "Subject is required"),
                    ("message", "Message must be at least 10 characters")], []) :=
  (rejected_request_no_dispatch ⟨"u@x", "c@x", "h@x"⟩ (fun _ => .ok ())
    ⟨⟨.str "J", .str "D", .str "a@b.com", .str "1234567890", .undefined, .undefined⟩, none⟩
    ⟨true, []⟩
    ⟨.undefined, .undefined, .undefined, .undefined, .undefined⟩
    ⟨false, [("name", "Valid name is required"), ("email", "Valid email is required"),
             ("subject", "Subject is required"),
             ("message", "Message must be at least 10 characters")]⟩
    rfl rfl).2.2 rfl

/-- A truthy number supplied for the contact `name` field makes
`data.name.trim()` throw. -/
theorem contactNameErrors_num (n : Int) (hn : n ≠ 0) :
    contactNameErrors (JSVal.num n) = .error () := by
  have ht : jsTruthy (JSVal.num n) = true := by
    simp only [jsTruthy, bne_iff_ne, ne_eq]
    exact hn
  unfold contactNameErrors
  rw [if_pos ht]

/-- A truthy number supplied for the contact `subject` field makes
`data.subject.trim()` throw. -/
theorem contactSubjectErrors_num (n : Int) (hn : n ≠ 0) :
    contactSubjectErrors (JSVal.num n) = .error () := by
  have ht : jsTruthy (JSVal.num n) = true := by
    simp only [jsTruthy, bne_iff_ne, ne_eq]
    exact hn
  unfold contactSubjectErrors
  rw [if_pos ht]

/-- A truthy number supplied for the contact `message` field makes
`data.message.trim()` throw. -/
theorem contactMessageErrors_num (n : Int) (hn : n ≠ 0) :
    contactMessageErrors (JSVal.num n) = .error () := by
  have ht : jsTruthy (JSVal.num n) = true := by
    simp only [jsTruthy, bne_iff_ne, ne_eq]
    exact hn
  unfold contactMessageErrors
  rw [if_pos ht]

/-- When any of the four fallible contact field checks throws, the whole
validator throws. -/
theorem validateFormInput_error_of_any (d : ContactData)
    (h : contactNameErrors d.name = .error () ∨
         contactPhoneErrors d.fullPhoneNumber = .error () ∨
         contactSubjectErrors d.subject = .error () ∨
         contactMessageErrors d.message = .error ()) :
    validateFormInput d = .error () := by
  unfold validateFormInput
  cases hx1 : contactNameErrors d.name <;>
    cases hx2 : contactPhoneErrors d.fullPhoneNumber <;>
      cases hx3 : contactSubjectErrors d.subject <;>
        cases hx4 : contactMessageErrors d.message <;>
          first
          | rfl
          | (exfalso; rcases h with h | h | h | h <;> simp_all)

/-- When either of the two fallible job-application field checks throws,
the whole validator throws. -/
theorem validateJobApplication_error_of_any (d : JobAppData)
    (h : jaFirstNameErrors d.firstName = .error () ∨
         jaLastNameErrors d.lastName = .error ()) :
    validateJobApplication d = .error () := by
  unfold validateJobApplication
  cases hx1 : jaFirstNameErrors d.firstName <;>
    cases hx2 : jaLastNameErrors d.lastName <;>
      first
      | rfl
      | (exfalso; rcases h with h | h <;> simp_all)

/-- C10: the validators are total only over string-or-absent field values
— a truthy number supplied for a trimmed field (name, subject or message
of a contact message; firstName of a job application) makes the `.trim()`
call throw, the handler's catch answers 500 with the generic failure
message, and no 400 with field errors is produced for such a request. -/
theorem nonstring_trimmed_field_500 (env : Env) (send : MailOptions → Except String Unit)
    (cd : ContactData) (req : JobAppRequest) :
    (∀ n : Int, n ≠ 0 →
      (cd.name = .num n ∨ cd.subject = .num n ∨ cd.message = .num n) →
      contactHandler env send cd = (.serverError contactFailureMessage jsTypeErrorMessage, []) ∧
      ∀ es, (contactHandler env send cd).1 ≠ .badRequest es) ∧
    (∀ n : Int, n ≠ 0 → req.body.firstName = .num n →
      jobAppHandler env send req = (.serverError jobAppFailureMessage jsTypeErrorMessage, []) ∧
      ∀ es, (jobAppHandler env send req).1 ≠ .badRequest es) := by
  constructor
  · intro n hn hfield
    have hval : validateFormInput cd = .error () := by
      apply validateFormInput_error_of_any
      rcases hfield with hf | hf | hf
      · exact Or.inl (by rw [hf]; exact contactNameErrors_num n hn)
      · exact Or.inr (Or.inr (Or.inl (by rw [hf]; exact contactSubjectErrors_num n hn)))
      · exact Or.inr (Or.inr (Or.inr (by rw [hf]; exact contactMessageErrors_num n hn)))
    have hh := contactHandler_thrown env send cd hval
    refine ⟨hh, ?_⟩
    intro es
    rw [hh]
    simp
  · intro n hn hf
    have hval : validateJobApplication req.body = .error () := by
      apply validateJobApplication_error_of_any
      exact Or.inl (by rw [hf]; rfl)
    have hh := jobAppHandler_thrown env send req hval
    refine ⟨hh, ?_⟩
    intro es
    rw [hh]
    simp

/-- Witness for C10: a contact request whose `name` is the number one is
answered 500, not 400. -/
theorem nonstring_trimmed_field_500_witness :
    contactHandler ⟨"u@x", "c@x", "h@x"⟩ (fun _ => .ok ())
        ⟨.num 1, .undefined, .undefined, .undefined, .undefined⟩ =
      (.serverError contactFailureMessage jsTypeErrorMessage, []) :=
  ((nonstring_trimmed_field_500 ⟨"u@x", "c@x", "h@x"⟩ (fun _ => .ok ())
      ⟨.num 1, .undefined, .undefined, .undefined, .undefined⟩
      ⟨⟨.num 1, .undefined, .undefined, .undefined, .undefined, .undefined⟩, none⟩).1 1
      (by decide) (Or.inl rfl)).1
